import Mathlib

/-!
# Verification of the todo-due-calendar feed service

Shallow embedding of `src/index.ts`: the token provider
(`getValidAccessToken`), the task fetcher (`fetchDueTasks`), the calendar
builder (`buildCalendar`) and the feed endpoint handler for
`GET /todo-due.ics`.

Modelling conventions:
* JavaScript string truthiness (`""` and `null`/`undefined` are falsy) is
  modelled by `truthy : Option String → Bool`.
* Network calls are modelled by passing their outcome as an explicit
  argument of type `Except HttpError _`; a thrown `Error` is an
  `Except.error` carrying the message the code builds.
* Module-level mutable token state is passed explicitly as `TokenState`;
  `Date.now()` is an explicit `now : Int` argument (epoch milliseconds).
* `Date.UTC(y, m, d)` is modelled as a day-number computation
  (`jsDateUTCDay`, days since the Unix epoch), including the ECMAScript
  rule that year values 0..99 are interpreted as 1900..1999, and the
  normalisation of out-of-range month/day values.
-/

namespace TodoDueCalendar

/-- JS truthiness of a `string | null | undefined` value:
`none` and the empty string are falsy. -/
def truthy : Option String → Bool
  | some s => !(s == "")
  | none => false

/-- Models the JS expression `x || null` on a `string | null | undefined`:
keeps the string only when it is truthy. -/
def jsOrNull (x : Option String) : Option String :=
  if truthy x then x else none

/-- Models `a || b` on JS strings (`a` kept unless empty). -/
def jsOrString (a b : String) : String :=
  if a = "" then b else a

/-- The `dueDateTime` sub-object of a Graph To Do task
(`{ dateTime?: string; timeZone?: string }` in `src/index.ts`). -/
structure DueDateTime where
  dateTime : Option String
  timeZone : Option String
deriving Repr, DecidableEq

/-- The `TodoTask` record type of `src/index.ts`. -/
structure TodoTask where
  id : String
  title : String
  status : Option String
  lastModifiedDateTime : Option String
  dueDateTime : Option DueDateTime
  categories : Option (List String)
deriving Repr, DecidableEq

/-- An entry of the Graph `/me/todo/lists` response
(`{ id: string; displayName: string }` in `src/index.ts`). -/
structure GraphList where
  id : String
  displayName : String
deriving Repr, DecidableEq

/-- A non-success HTTP response: the status the code interpolates into its
error message and the body text it reads with `response.text()`. -/
structure HttpError where
  status : Nat
  body : String
deriving Repr, DecidableEq

/-- `t.dueDateTime?.dateTime` — optional chaining through both levels. -/
def dueOf (t : TodoTask) : Option String :=
  t.dueDateTime.bind (·.dateTime)

/-- `(t.status || "").toLowerCase() === "completed"` (line 150). -/
def isDone (t : TodoTask) : Bool :=
  (t.status.getD "").toLower == "completed"

/-- The filter phase of `fetchDueTasks` (lines 146-153): keep a task when
`t.dueDateTime?.dateTime` is truthy and the task is not completed. -/
def filterDueTasks (ts : List TodoTask) : List TodoTask :=
  ts.filter (fun t => truthy (dueOf t) && !(isDone t))

/-! ## Date arithmetic: `Date.UTC` as a civil day number -/

/-- Day number (days since 1970-01-01) of the first day of civil month
`m` of year `y`, with out-of-range months normalised by year carry the way
ECMAScript `MakeDay` does.  Uses the standard era/year-of-era civil
calendar computation. -/
def daysFromCivilYM (y m : Int) : Int :=
  let yn := y + (m - 1).ediv 12
  let mn := (m - 1).emod 12 + 1
  let ys := if mn ≤ 2 then yn - 1 else yn
  let era := ys.ediv 400
  let yoe := ys - era * 400
  let mp := if mn > 2 then mn - 3 else mn + 9
  let doyBase := (153 * mp + 2).ediv 5
  let doe := yoe * 365 + yoe.ediv 4 - yoe.ediv 100 + doyBase
  era * 146097 + doe - 719468

/-- Day number (days since 1970-01-01) of civil date `(y, m, d)` with
month 1-based; day values outside the month extrapolate linearly, exactly
as ECMAScript `MakeDay` computes `Day(t) + date - 1`. -/
def daysFromCivil (y m d : Int) : Int :=
  daysFromCivilYM y m + (d - 1)

/-- The ECMAScript two-digit-year rule of `Date.UTC`: integer year values
0..99 are interpreted as 1900..1999; all other years are used as given. -/
def jsFullYear (y : Int) : Int :=
  if 0 ≤ y && y ≤ 99 then y + 1900 else y

/-- `Date.UTC(y, monthIndex, d)` as a day number (days since epoch);
`monthIndex` is 0-based as in JS.  The produced `Date` is midnight UTC of
this day, which is what an all-day (`VALUE=DATE`) event uses. -/
def jsDateUTCDay (y monthIndex d : Int) : Int :=
  daysFromCivil (jsFullYear y) (monthIndex + 1) d

/-- `split("-")` on a character list: the `-`-separated fields, with
empty fields kept, exactly as JS `String.prototype.split`. -/
def splitOnDash : List Char → List (List Char)
  | [] => [[]]
  | c :: cs =>
    if c = '-' then [] :: splitOnDash cs
    else
      match splitOnDash cs with
      | [] => [[c]]
      | p :: ps => (c :: p) :: ps

/-- One step of reading a decimal numeral. -/
def decDigit? (c : Char) : Option Nat :=
  if 48 ≤ c.toNat && c.toNat ≤ 57 then some (c.toNat - 48) else none

/-- Accumulating decimal read of a character list. -/
def charsToNatAux (acc : Nat) : List Char → Option Nat
  | [] => some acc
  | c :: cs =>
    match decDigit? c with
    | some d => charsToNatAux (acc * 10 + d) cs
    | none => none

/-- `Number(field)` for a non-empty all-digit field, as in the
`YYYY-MM-DD` slices the claims quantify over; `none` models the fields on
which `Number` yields `NaN` (and hence an invalid `Date`). -/
def charsToNat? : List Char → Option Nat
  | [] => none
  | c :: cs => charsToNatAux 0 (c :: cs)

/-- `iso.slice(0, 10).split("-").map(Number)` destructured as `[y, m, d]`
(line 170): `none` when the slice does not have three `-`-separated
decimal fields, which in JS yields NaN components and an invalid
`Date`. -/
def parseDueYMD (iso : String) : Option (Nat × Nat × Nat) :=
  match (splitOnDash (iso.data.take 10)).map charsToNat? with
  | some y :: some m :: some d :: _ => some (y, m, d)
  | _ => none

/-! ## Calendar builder -/

/-- The event record `cal.createEvent({...})` receives (lines 174-187).
`startDay`/`endDay` are day numbers of the all-day range; `none` models an
invalid `Date` (NaN components). -/
structure ICalEvent where
  id : String
  startDay : Option Int
  endDay : Option Int
  allDay : Bool
  summary : String
  description : String
  busystatus : String
  lastModified : Option String
deriving Repr, DecidableEq

/-- The calendar object built by `ical({...})` (lines 159-164) together
with the events added to it. -/
structure ICalCalendar where
  name : String
  prodIdCompany : String
  prodIdProduct : String
  prodIdLanguage : String
  scale : String
  ttl : Nat
  events : List ICalEvent
deriving Repr, DecidableEq

/-- The description expression (lines 180-182):
`(t.categories?.length ? "#" + t.categories.join(" #") + "\n" : "") +
"Source: Microsoft To Do"`. -/
def descriptionOf (cats : Option (List String)) : String :=
  (if (cats.getD []).isEmpty then ""
   else "#" ++ String.intercalate " #" (cats.getD []) ++ "\n")
    ++ "Source: Microsoft To Do"

/-- The event built from a task whose due string passed the `!iso` guard
(lines 170-187).  `iso` is `t.dueDateTime?.dateTime` (defaulted, unused
when absent since `eventOfTask` guards). -/
def eventFor (t : TodoTask) : ICalEvent :=
  let iso := (dueOf t).getD ""
  let comps := parseDueYMD iso
  { id := "todo-" ++ t.id
    startDay := comps.map (fun c =>
      jsDateUTCDay (c.1 : Int) ((c.2.1 : Int) - 1) (c.2.2 : Int))
    endDay := comps.map (fun c =>
      jsDateUTCDay (c.1 : Int) ((c.2.1 : Int) - 1) ((c.2.2 : Int) + 1))
    allDay := true
    summary := jsOrString t.title "(untitled task)"
    description := descriptionOf t.categories
    busystatus := "FREE"
    lastModified := jsOrNull t.lastModifiedDateTime }

/-- Loop body of `buildCalendar`: `if (!iso) continue;` then
`cal.createEvent({...})`. -/
def eventOfTask (t : TodoTask) : Option ICalEvent :=
  if truthy (dueOf t) then some (eventFor t) else none

/-- `buildCalendar(tasks)` (lines 158-190): fixed calendar metadata plus
one event per task with a truthy due string. -/
def buildCalendar (tasks : List TodoTask) : ICalCalendar :=
  { name := "todo-due-calendar"
    prodIdCompany := "bunnyxt"
    prodIdProduct := "todo-due-ics"
    prodIdLanguage := "zh-CN"
    scale := "GREGORIAN"
    ttl := 60 * 30
    events := tasks.filterMap eventOfTask }

/-! ## Task fetcher -/

/-- The per-list loop of `fetchDueTasks` (lines 131-143): fetch each
list's tasks in order, throwing `List tasks error <status>: <text>` on the
first non-success response; a success envelope carries `value ?? []`. -/
def fetchTaskArrays
    (tasksRes : String → Except HttpError (Option (List TodoTask))) :
    List GraphList → Except String (List (List TodoTask))
  | [] => .ok []
  | l :: rest =>
    match tasksRes l.id with
    | .error e =>
      .error ("List tasks error " ++ toString e.status ++ ": " ++ e.body)
    | .ok v =>
      match fetchTaskArrays tasksRes rest with
      | .error msg => .error msg
      | .ok arrs => .ok (v.getD [] :: arrs)

/-- `fetchDueTasks()` (lines 110-155), with the two upstream calls passed
in as outcomes: the `/me/todo/lists` response and, per list id, the
`/tasks` response.  (Token acquisition, modelled separately by
`getValidAccessToken`, precedes these calls; a token failure aborts the
fetch before any HTTP request.)  An `Except.error` result carries no
tasks: the thrown error discards everything fetched so far. -/
def fetchDueTasks
    (listsRes : Except HttpError (Option (List GraphList)))
    (tasksRes : String → Except HttpError (Option (List TodoTask))) :
    Except String (List TodoTask) :=
  match listsRes with
  | .error e =>
    .error ("List lists error " ++ toString e.status ++ ": " ++ e.body)
  | .ok v =>
    match fetchTaskArrays tasksRes (v.getD []) with
    | .error msg => .error msg
    | .ok arrs => .ok (filterDueTasks arrs.flatten)

/-! ## Token provider -/

/-- The token-related environment configuration (`ACCESS_TOKEN`,
`REFRESH_TOKEN`, `CLIENT_ID`), each a possibly-absent string. -/
structure TokenConfig where
  accessToken : Option String
  refreshToken : Option String
  clientId : Option String
deriving Repr, DecidableEq

/-- The module-level mutable state (lines 34-35):
`currentAccessToken : string | null` and `tokenExpiryTime : number`
(epoch milliseconds). -/
structure TokenState where
  currentAccessToken : Option String
  tokenExpiryTime : Int
deriving Repr, DecidableEq

/-- The initial module state: `currentAccessToken = ACCESS_TOKEN || null`,
`tokenExpiryTime = 0`. -/
def initialTokenState (cfg : TokenConfig) : TokenState :=
  { currentAccessToken := jsOrNull cfg.accessToken
    tokenExpiryTime := 0 }

/-- The parsed body of a successful refresh exchange (lines 77-81). -/
structure TokenResponse where
  access_token : String
  expires_in : Int
  refresh_token : Option String
deriving Repr, DecidableEq

/-- Outcome of one call to `getValidAccessToken`: the returned token or
thrown error message, the module state after the call, and whether the
refresh exchange was performed (the single `fetch` to the token URL). -/
structure TokenCallResult where
  result : Except String String
  state : TokenState
  refreshCalled : Bool
deriving Repr

/-- `getValidAccessToken()` (lines 37-96).  `now` is `Date.now()`;
`refreshOutcome` is the outcome of the refresh exchange, consulted only
when the code actually performs it. -/
def getValidAccessToken (cfg : TokenConfig) (st : TokenState) (now : Int)
    (refreshOutcome : Except HttpError TokenResponse) : TokenCallResult :=
  if !(truthy cfg.refreshToken) then
    if !(truthy cfg.accessToken) then
      { result := .error "No access token available"
        state := st
        refreshCalled := false }
    else
      { result := .ok (cfg.accessToken.getD "")
        state := st
        refreshCalled := false }
  else
    if truthy st.currentAccessToken && decide (now < st.tokenExpiryTime) then
      { result := .ok (st.currentAccessToken.getD "")
        state := st
        refreshCalled := false }
    else
      match refreshOutcome with
      | .error e =>
        { result := .error
            ("Token refresh failed " ++ toString e.status ++ ": " ++ e.body)
          state := st
          refreshCalled := true }
      | .ok r =>
        { result := .ok r.access_token
          state := { currentAccessToken := some r.access_token
                     tokenExpiryTime := now + r.expires_in * 1000 - 60000 }
          refreshCalled := true }

/-! ## Feed endpoint -/

/-- The HTTP response the handler sends. -/
structure HttpResponse where
  status : Nat
  contentType : Option String
  cacheControl : Option String
  body : String
deriving Repr, DecidableEq

/-- The handler outcome: the response plus whether the fetch/build
pipeline was invoked at all. -/
structure HandlerResult where
  response : HttpResponse
  pipelineInvoked : Bool
deriving Repr, DecidableEq

/-- Modelled from the spec: the serialization `cal.toString()` performed
by the external `ical-generator` library, which is not part of this
repository.  The spec describes the output as an "RFC 5545-compatible
calendar document (VCALENDAR containing VEVENT entries)" carrying the
calendar metadata, so the model emits a VCALENDAR wrapper with the
metadata lines and one VEVENT block per event. -/
def serializeEvent (e : ICalEvent) : String :=
  "BEGIN:VEVENT\r\nUID:" ++ e.id ++ "\r\nSUMMARY:" ++ e.summary
    ++ "\r\nDESCRIPTION:" ++ e.description ++ "\r\nEND:VEVENT\r\n"

/-- Modelled from the spec: see `serializeEvent`. -/
def serializeCalendar (cal : ICalCalendar) : String :=
  "BEGIN:VCALENDAR\r\nVERSION:2.0\r\nPRODID:-//" ++ cal.prodIdCompany
    ++ "//" ++ cal.prodIdProduct ++ "//" ++ cal.prodIdLanguage
    ++ "\r\nNAME:" ++ cal.name
    ++ "\r\nCALSCALE:" ++ cal.scale
    ++ "\r\nX-PUBLISHED-TTL:PT30M\r\n"
    ++ String.join (cal.events.map serializeEvent)
    ++ "END:VCALENDAR\r\n"

/-- The fetch-then-build-then-send part of the handler (lines 202-211):
a successful pipeline sends the serialized calendar with the calendar
MIME type and cache hint; any thrown error is caught and answered with
HTTP 500 and the fixed body `Calendar feed error`. -/
def runFeedPipeline (pipeline : Except String ICalCalendar) :
    HandlerResult :=
  match pipeline with
  | .ok cal =>
    { response := { status := 200
                    contentType := some "text/calendar; charset=utf-8"
                    cacheControl := some "public, max-age=120"
                    body := serializeCalendar cal }
      pipelineInvoked := true }
  | .error _ =>
    { response := { status := 500
                    contentType := none
                    cacheControl := none
                    body := "Calendar feed error" }
      pipelineInvoked := true }

/-- The `GET /todo-due.ics` handler (lines 195-212).  `icsToken` is the
configured `ICS_TOKEN` (defaulted to `""`); `queryToken` is
`req.query.token`; `pipeline` is the outcome of
`buildCalendar(await fetchDueTasks())`. -/
def handleFeed (icsToken : String) (queryToken : Option String)
    (pipeline : Except String ICalCalendar) : HandlerResult :=
  if icsToken ≠ "" then
    if queryToken.getD "" ≠ icsToken then
      { response := { status := 401
                      contentType := none
                      cacheControl := none
                      body := "Unauthorized" }
        pipelineInvoked := false }
    else runFeedPipeline pipeline
  else runFeedPipeline pipeline

/-! ## Concrete tasks used in scenario statements -/

/-- Replace the `timeZone` field of the task's `dueDateTime` sub-object,
leaving every other field unchanged. -/
def withDueTimeZone (t : TodoTask) (tz : Option String) : TodoTask :=
  { t with dueDateTime := t.dueDateTime.map (fun dd => { dd with timeZone := tz }) }

/-- A minimal task carrying only a due timestamp. -/
def taskWithDue (due : String) : TodoTask :=
  { id := "t1"
    title := "task"
    status := some "notStarted"
    lastModifiedDateTime := none
    dueDateTime := some { dateTime := some due, timeZone := none }
    categories := none }

/-- The scenario task of the spec:
`{id:"abc", title:"Pay rent", status:"notStarted",
dueDateTime:{dateTime:"2024-01-01T00:00:00"}, categories:["bills"]}`. -/
def payRentTask : TodoTask :=
  { id := "abc"
    title := "Pay rent"
    status := some "notStarted"
    lastModifiedDateTime := none
    dueDateTime := some { dateTime := some "2024-01-01T00:00:00", timeZone := none }
    categories := some ["bills"] }

/-! ## Helper lemmas -/

theorem daysFromCivil_add_one (y m d : Int) :
    daysFromCivil y m (d + 1) = daysFromCivil y m d + 1 := by
  simp only [daysFromCivil]
  ring

theorem jsFullYear_of_ge (y : Int) (h : 100 ≤ y) : jsFullYear y = y := by
  unfold jsFullYear
  split
  · next hc =>
    simp only [Bool.and_eq_true, decide_eq_true_eq] at hc
    omega
  · rfl

theorem filterMap_eventOfTask_eq_map (ts : List TodoTask)
    (h : ∀ t ∈ ts, truthy (dueOf t) = true) :
    ts.filterMap eventOfTask = ts.map eventFor := by
  induction ts with
  | nil => rfl
  | cons a l ih =>
    have ha := h a (List.mem_cons_self a l)
    have hl := fun t ht => h t (List.mem_cons_of_mem a ht)
    simp [List.filterMap_cons, eventOfTask, ha, ih hl]

theorem fetchTaskArrays_error_of_mem
    (tasksRes : String → Except HttpError (Option (List TodoTask)))
    (ls : List GraphList) (l : GraphList) (e : HttpError)
    (hmem : l ∈ ls) (herr : tasksRes l.id = .error e) :
    ∃ msg, fetchTaskArrays tasksRes ls = .error msg := by
  induction ls with
  | nil => cases hmem
  | cons a rest ih =>
    rcases List.mem_cons.mp hmem with rfl | hrest
    · exact ⟨"List tasks error " ++ toString e.status ++ ": " ++ e.body,
        by simp [fetchTaskArrays, herr]⟩
    · match hres : tasksRes a.id with
      | .error e2 =>
        exact ⟨"List tasks error " ++ toString e2.status ++ ": " ++ e2.body,
          by simp [fetchTaskArrays, hres]⟩
      | .ok v =>
        obtain ⟨msg, hmsg⟩ := ih hrest
        exact ⟨msg, by simp [fetchTaskArrays, hres, hmsg]⟩

/-! ## Claim theorems -/

/-- C1: the fetch-then-build pipeline emits a calendar event for a task
if and only if the task has a non-empty due timestamp and its status,
case-folded, is not "completed": the emitted event list is exactly one
event (via `eventFor`) per qualifying task, in order, so qualifying tasks
produce exactly one event each and all other tasks produce none. -/
theorem pipeline_emits_event_iff_due_and_not_completed (ts : List TodoTask) :
    (buildCalendar (filterDueTasks ts)).events =
      (ts.filter (fun t => truthy (dueOf t) && !(isDone t))).map eventFor
    ∧ (buildCalendar (filterDueTasks ts)).events.length =
        ts.countP (fun t => truthy (dueOf t) && !(isDone t)) := by
  have hmap : (filterDueTasks ts).filterMap eventOfTask =
      (ts.filter (fun t => truthy (dueOf t) && !(isDone t))).map eventFor := by
    rw [filterMap_eventOfTask_eq_map]
    · rfl
    · intro t ht
      have hp := (List.mem_filter.mp ht).2
      exact (Bool.and_eq_true _ _ |>.mp hp).1
  refine ⟨hmap, ?_⟩
  show ((filterDueTasks ts).filterMap eventOfTask).length = _
  rw [hmap, List.length_map, List.countP_eq_length_filter]

/-- C5: when a shared-secret token is configured (non-empty), a request
whose token query parameter is absent or differs from the secret is
answered with HTTP 401 and the fetch/build pipeline is not invoked. -/
theorem feed_rejects_bad_token (icsToken : String) (q : Option String)
    (pipeline : Except String ICalCalendar)
    (hTok : icsToken ≠ "") (hq : q = none ∨ q.getD "" ≠ icsToken) :
    (handleFeed icsToken q pipeline).response.status = 401
    ∧ (handleFeed icsToken q pipeline).response.body = "Unauthorized"
    ∧ (handleFeed icsToken q pipeline).pipelineInvoked = false := by
  have hne : q.getD "" ≠ icsToken := by
    rcases hq with rfl | h
    · simpa using (Ne.symm hTok)
    · exact h
  simp [handleFeed, hTok, hne]

/-- C5 witness: with secret "s3cret" and no token parameter supplied, the
handler answers 401 without running the pipeline. -/
theorem feed_rejects_bad_token_witness :
    (handleFeed "s3cret" none (.ok (buildCalendar []))).response.status = 401
    ∧ (handleFeed "s3cret" none (.ok (buildCalendar []))).response.body = "Unauthorized"
    ∧ (handleFeed "s3cret" none (.ok (buildCalendar []))).pipelineInvoked = false :=
  feed_rejects_bad_token "s3cret" none (.ok (buildCalendar []))
    (by decide) (Or.inl rfl)

/-- C6: for a request that passes the secret check, any exception from
the fetch/build pipeline is caught and answered with HTTP 500 and the
fixed body `Calendar feed error`; the handler is a total function, so no
crash propagates and no partial calendar is sent. -/
theorem feed_catches_pipeline_error (icsToken : String) (q : Option String)
    (msg : String) (hpass : icsToken = "" ∨ q.getD "" = icsToken) :
    handleFeed icsToken q (.error msg) =
      { response := { status := 500, contentType := none, cacheControl := none,
                      body := "Calendar feed error" }
        pipelineInvoked := true } := by
  rcases hpass with rfl | h
  · simp [handleFeed, runFeedPipeline]
  · simp [handleFeed, h, runFeedPipeline]

/-- C6 witness: with no secret configured and the list-enumeration call
failing upstream, the handler answers 500 with the generic body. -/
theorem feed_catches_pipeline_error_witness :
    handleFeed "" none (.error "List lists error 503: busy") =
      { response := { status := 500, contentType := none, cacheControl := none,
                      body := "Calendar feed error" }
        pipelineInvoked := true } :=
  feed_catches_pipeline_error "" none "List lists error 503: busy" (Or.inl rfl)

/-- C8: with only a static access token configured (no refresh token),
every call to `getValidAccessToken` returns that token unchanged, leaves
the cached state untouched and performs no refresh exchange, for any
state and any current time. -/
theorem static_token_always_returned (cfg : TokenConfig) (st : TokenState)
    (now : Int) (outcome : Except HttpError TokenResponse)
    (hr : truthy cfg.refreshToken = false) (ha : truthy cfg.accessToken = true) :
    getValidAccessToken cfg st now outcome =
      { result := .ok (cfg.accessToken.getD "")
        state := st
        refreshCalled := false } := by
  simp [getValidAccessToken, hr, ha]

/-- C8 witness: a concrete static-only configuration returns the
configured token with no refresh and no state change, at an arbitrary
late time and a stale state. -/
theorem static_token_always_returned_witness :
    getValidAccessToken
        { accessToken := some "tokA", refreshToken := none, clientId := none }
        { currentAccessToken := some "other", tokenExpiryTime := 5 }
        999999 (.ok { access_token := "fresh", expires_in := 3600, refresh_token := none }) =
      { result := .ok "tokA"
        state := { currentAccessToken := some "other", tokenExpiryTime := 5 }
        refreshCalled := false } :=
  static_token_always_returned _ _ _ _ (by decide) (by decide)

theorem filterMap_eventOfTask_eq_nil (ts : List TodoTask)
    (h : ∀ t ∈ ts, truthy (dueOf t) = false) :
    ts.filterMap eventOfTask = [] := by
  induction ts with
  | nil => rfl
  | cons a l ih =>
    have ha := h a (List.mem_cons_self a l)
    have hl := fun t ht => h t (List.mem_cons_of_mem a ht)
    simp [List.filterMap_cons, eventOfTask, ha, ih hl]

/-- C2 (counterexample): the claim says the event starts at the calendar
date written in the first 10 characters of the due timestamp, for every
task with a non-empty due timestamp.  For due timestamp
`"0042-01-01T00:00:00"` the parsed year 42 falls in the ECMAScript
`Date.UTC` two-digit-year range 0..99, which is remapped to 1942, so the
produced event starts at 1942-01-01, not at 0042-01-01. -/
theorem date_derivation_two_digit_year_counterexample :
    dueOf (taskWithDue "0042-01-01T00:00:00") = some "0042-01-01T00:00:00"
    ∧ parseDueYMD "0042-01-01T00:00:00" = some (42, 1, 1)
    ∧ (eventFor (taskWithDue "0042-01-01T00:00:00")).startDay ≠
        some (daysFromCivil 42 1 1)
    ∧ (eventFor (taskWithDue "0042-01-01T00:00:00")).startDay =
        some (daysFromCivil 1942 1 1) :=
  ⟨rfl, by decide, by decide, by decide⟩

/-- C2 (amended): for every task whose due timestamp's first 10
characters parse as `y-m-d` with `y ≥ 100` (the ECMAScript `Date.UTC`
two-digit-year remapping of years 0..99 to 1900..1999 does not apply),
the event starts at that calendar date with an exclusive end exactly one
day later; the derivation reads only the `dateTime` string, so it is
independent of the task's `timeZone` field (and uses UTC day arithmetic,
so no local-timezone shift occurs); due timestamp `"2024-03-15T00:00:00"`
yields the span 2024-03-15 (day 19797) to 2024-03-16 (exclusive). -/
theorem date_derivation_amended :
    (∀ (t : TodoTask) (iso : String) (y m d : Nat),
      dueOf t = some iso → parseDueYMD iso = some (y, m, d) → 100 ≤ y →
      (eventFor t).startDay = some (daysFromCivil y m d)
      ∧ (eventFor t).endDay = some (daysFromCivil y m ((d : Int) + 1))
      ∧ daysFromCivil y m ((d : Int) + 1) = daysFromCivil y m d + 1)
    ∧ (∀ (t : TodoTask) (tz : Option String),
        eventOfTask (withDueTimeZone t tz) = eventOfTask t)
    ∧ (eventFor (taskWithDue "2024-03-15T00:00:00")).startDay =
        some (daysFromCivil 2024 3 15)
    ∧ (eventFor (taskWithDue "2024-03-15T00:00:00")).endDay =
        some (daysFromCivil 2024 3 16)
    ∧ daysFromCivil 2024 3 15 = 19797
    ∧ daysFromCivil 2024 3 16 = daysFromCivil 2024 3 15 + 1 := by
  refine ⟨?_, ?_, by decide, by decide, by decide, by decide⟩
  · intro t iso y m d hdue hparse hy
    have hyi : (100 : Int) ≤ (y : Int) := by exact_mod_cast hy
    have hm : ((m : Int) - 1) + 1 = (m : Int) := by ring
    have hstart : jsDateUTCDay (y : Int) ((m : Int) - 1) (d : Int) =
        daysFromCivil y m d := by
      unfold jsDateUTCDay
      rw [hm, jsFullYear_of_ge _ hyi]
    have hend : jsDateUTCDay (y : Int) ((m : Int) - 1) ((d : Int) + 1) =
        daysFromCivil y m ((d : Int) + 1) := by
      unfold jsDateUTCDay
      rw [hm, jsFullYear_of_ge _ hyi]
    exact ⟨by simp [eventFor, hdue, hparse, hstart],
           by simp [eventFor, hdue, hparse, hend],
           daysFromCivil_add_one _ _ _⟩
  · intro t tz
    obtain ⟨tid, ttl2, tst, tlm, tdd, tct⟩ := t
    cases tdd with
    | none => rfl
    | some dd => rfl

/-- C2 witness: the amended general statement applied to a task due
`"2024-01-05T08:00:00"`. -/
theorem date_derivation_amended_witness :
    (eventFor (taskWithDue "2024-01-05T08:00:00")).startDay =
        some (daysFromCivil 2024 1 5)
    ∧ (eventFor (taskWithDue "2024-01-05T08:00:00")).endDay =
        some (daysFromCivil 2024 1 ((5 : Int) + 1))
    ∧ daysFromCivil 2024 1 ((5 : Int) + 1) = daysFromCivil 2024 1 5 + 1 :=
  date_derivation_amended.1 (taskWithDue "2024-01-05T08:00:00")
    "2024-01-05T08:00:00" 2024 1 5 rfl (by decide) (by decide)

/-- C3 (counterexample): the claim promises the cached token is returned
with no refresh whenever it is non-null and the current time is before
the cached expiry.  The code checks JS truthiness, not null-ness: with the
cached token being the empty string (non-null) and expiry 100 > now = 0,
a refresh is still performed. -/
theorem token_cache_nonnull_counterexample :
    ({ currentAccessToken := some "", tokenExpiryTime := 100 } :
        TokenState).currentAccessToken ≠ none
    ∧ ((0 : Int) <
        ({ currentAccessToken := some "", tokenExpiryTime := 100 } :
          TokenState).tokenExpiryTime)
    ∧ (getValidAccessToken
        { accessToken := some "tokA", refreshToken := some "refr",
          clientId := some "cid" }
        { currentAccessToken := some "", tokenExpiryTime := 100 } 0
        (.ok { access_token := "fresh", expires_in := 3600,
               refresh_token := none })).refreshCalled = true :=
  ⟨by decide, by decide, rfl⟩

/-- C3 (amended): with a refresh token configured, the cached token is
returned with no refresh exchange whenever it is non-empty (JS-truthy)
and the current time is strictly before the cached expiry; otherwise the
single refresh exchange is performed and, on success, the cache holds the
returned access token with expiry `now + expires_in * 1000 - 60000`
(epoch milliseconds: lifetime minus a 60-second safety margin). -/
theorem getValidAccessToken_cache_and_refresh (cfg : TokenConfig)
    (st : TokenState) (now : Int)
    (outcome : Except HttpError TokenResponse)
    (href : truthy cfg.refreshToken = true) :
    (truthy st.currentAccessToken = true → now < st.tokenExpiryTime →
      getValidAccessToken cfg st now outcome =
        { result := .ok (st.currentAccessToken.getD "")
          state := st
          refreshCalled := false })
    ∧ ((truthy st.currentAccessToken = false ∨ st.tokenExpiryTime ≤ now) →
        (getValidAccessToken cfg st now outcome).refreshCalled = true
        ∧ ∀ r, outcome = .ok r →
            getValidAccessToken cfg st now outcome =
              { result := .ok r.access_token
                state := { currentAccessToken := some r.access_token
                           tokenExpiryTime := now + r.expires_in * 1000 - 60000 }
                refreshCalled := true }) := by
  constructor
  · intro hcur hlt
    simp [getValidAccessToken, href, hcur, hlt]
  · intro hcond
    have hc : (truthy st.currentAccessToken &&
        decide (now < st.tokenExpiryTime)) = false := by
      rcases hcond with h | h
      · simp [h]
      · have hd : decide (now < st.tokenExpiryTime) = false :=
          decide_eq_false (not_lt.mpr h)
        simp [hd]
    constructor
    · cases outcome <;> simp [getValidAccessToken, href, hc]
    · rintro r rfl
      simp [getValidAccessToken, href, hc]

/-- C3 witness: a concrete valid cache is returned unchanged with no
refresh call. -/
theorem getValidAccessToken_cache_and_refresh_witness :
    getValidAccessToken
        { accessToken := none, refreshToken := some "refr",
          clientId := some "cid" }
        { currentAccessToken := some "cached", tokenExpiryTime := 1000 }
        500
        (.ok { access_token := "fresh", expires_in := 3600,
               refresh_token := none }) =
      { result := .ok "cached"
        state := { currentAccessToken := some "cached", tokenExpiryTime := 1000 }
        refreshCalled := false } :=
  (getValidAccessToken_cache_and_refresh
      { accessToken := none, refreshToken := some "refr", clientId := some "cid" }
      { currentAccessToken := some "cached", tokenExpiryTime := 1000 }
      500
      (.ok { access_token := "fresh", expires_in := 3600, refresh_token := none })
      (by decide)).1 (by decide) (by decide)

/-- C4: `fetchDueTasks` fails with a thrown error on any non-success
HTTP response, from the list-enumeration request or from any per-list
task request; the `Except.error` result carries no tasks, so a failure on
one list discards everything fetched from the earlier lists. -/
theorem fetchDueTasks_fails_on_upstream_error :
    (∀ (e : HttpError)
      (tasksRes : String → Except HttpError (Option (List TodoTask))),
      fetchDueTasks (.error e) tasksRes =
        .error ("List lists error " ++ toString e.status ++ ": " ++ e.body))
    ∧ (∀ (ov : Option (List GraphList))
        (tasksRes : String → Except HttpError (Option (List TodoTask)))
        (l : GraphList) (e : HttpError),
        l ∈ ov.getD [] → tasksRes l.id = .error e →
        ∃ msg, fetchDueTasks (.ok ov) tasksRes = .error msg) := by
  constructor
  · intro e tasksRes
    rfl
  · intro ov tasksRes l e hmem herr
    obtain ⟨msg, hmsg⟩ :=
      fetchTaskArrays_error_of_mem tasksRes (ov.getD []) l e hmem herr
    exact ⟨msg, by simp [fetchDueTasks, hmsg]⟩

/-- C4 witness: a failing list-enumeration call, and a second list whose
task request fails after the first list succeeded, both abort the fetch
with an error and no tasks. -/
theorem fetchDueTasks_fails_on_upstream_error_witness :
    (fetchDueTasks (.error { status := 503, body := "busy" })
        (fun _ => .ok (some [])) = .error "List lists error 503: busy")
    ∧ ∃ msg,
        fetchDueTasks
          (.ok (some [{ id := "l1", displayName := "A" },
                      { id := "l2", displayName := "B" }]))
          (fun i => if i = "l2"
            then .error { status := 500, body := "boom" }
            else .ok (some [taskWithDue "2024-03-15T00:00:00"])) =
          .error msg :=
  ⟨fetchDueTasks_fails_on_upstream_error.1
      { status := 503, body := "busy" } (fun _ => .ok (some [])),
   fetchDueTasks_fails_on_upstream_error.2
      (some [{ id := "l1", displayName := "A" },
             { id := "l2", displayName := "B" }])
      (fun i => if i = "l2"
        then .error { status := 500, body := "boom" }
        else .ok (some [taskWithDue "2024-03-15T00:00:00"]))
      { id := "l2", displayName := "B" } { status := 500, body := "boom" }
      (by decide) (by rfl)⟩

/-- C7: the spec scenario task produces exactly the event with id
"todo-abc", all-day span 2024-01-01 (day 19723) to 2024-01-02 (exclusive,
day 19724), summary "Pay rent" and description `"#bills\n"` followed by
the fixed provenance line; in general the description carries the
newline-terminated hash-tag line exactly when the categories list is
non-empty. -/
theorem payRent_scenario :
    (buildCalendar [payRentTask]).events =
      [{ id := "todo-abc"
         startDay := some (daysFromCivil 2024 1 1)
         endDay := some (daysFromCivil 2024 1 2)
         allDay := true
         summary := "Pay rent"
         description := "#bills\n" ++ "Source: Microsoft To Do"
         busystatus := "FREE"
         lastModified := none }]
    ∧ daysFromCivil 2024 1 1 = 19723
    ∧ daysFromCivil 2024 1 2 = 19724
    ∧ (∀ t : TodoTask, t.categories.getD [] = [] →
        (eventFor t).description = "Source: Microsoft To Do")
    ∧ (∀ (t : TodoTask) (cs : List String),
        t.categories = some cs → cs ≠ [] →
        (eventFor t).description =
          "#" ++ String.intercalate " #" cs ++ "\n"
            ++ "Source: Microsoft To Do") := by
  refine ⟨by decide, by decide, by decide, ?_, ?_⟩
  · intro t h
    simp [eventFor, descriptionOf, h]
  · intro t cs hcs hne
    cases cs with
    | nil => exact absurd rfl hne
    | cons c rest =>
      simp [eventFor, descriptionOf, hcs]

/-- C7 witness: the general description rule applied to the scenario
task's non-empty category list. -/
theorem payRent_scenario_witness :
    (eventFor payRentTask).description =
      "#" ++ String.intercalate " #" ["bills"] ++ "\n"
        ++ "Source: Microsoft To Do" :=
  payRent_scenario.2.2.2.2 payRentTask ["bills"] rfl (by decide)

/-- C9: with both a static access token and a refresh token configured,
the initial module state has expiry 0 and caches the static token, yet
the first call always performs the refresh exchange — the refresh branch
takes precedence and `now < 0` never holds — and the call's result is the
refresh outcome (the returned `access_token` on success, the thrown
refresh error on failure), never the static-token branch. -/
theorem first_call_with_both_tokens_refreshes (cfg : TokenConfig)
    (now : Int) (outcome : Except HttpError TokenResponse)
    (ha : truthy cfg.accessToken = true) (hr : truthy cfg.refreshToken = true)
    (hnow : 0 ≤ now) :
    (initialTokenState cfg).tokenExpiryTime = 0
    ∧ (initialTokenState cfg).currentAccessToken = cfg.accessToken
    ∧ (getValidAccessToken cfg (initialTokenState cfg) now
        outcome).refreshCalled = true
    ∧ (∀ r, outcome = .ok r →
        (getValidAccessToken cfg (initialTokenState cfg) now
          outcome).result = .ok r.access_token)
    ∧ (∀ e, outcome = .error e →
        (getValidAccessToken cfg (initialTokenState cfg) now
          outcome).result =
          .error ("Token refresh failed " ++ toString e.status ++ ": "
            ++ e.body)) := by
  have hd : decide (now < (initialTokenState cfg).tokenExpiryTime) = false := by
    simp [initialTokenState]
    omega
  refine ⟨rfl, by simp [initialTokenState, jsOrNull, ha], ?_, ?_, ?_⟩
  · cases outcome <;> simp [getValidAccessToken, hr, hd]
  · rintro r rfl
    simp [getValidAccessToken, hr, hd]
  · rintro e rfl
    simp [getValidAccessToken, hr, hd]

/-- C9 witness: a concrete configuration with both tokens refreshes on
the first call and returns the refreshed token. -/
theorem first_call_with_both_tokens_refreshes_witness :
    (getValidAccessToken
        { accessToken := some "staticTok", refreshToken := some "refr",
          clientId := some "cid" }
        (initialTokenState
          { accessToken := some "staticTok", refreshToken := some "refr",
            clientId := some "cid" })
        1700000000000
        (.ok { access_token := "newTok", expires_in := 3600,
               refresh_token := none })).refreshCalled = true
    ∧ (getValidAccessToken
        { accessToken := some "staticTok", refreshToken := some "refr",
          clientId := some "cid" }
        (initialTokenState
          { accessToken := some "staticTok", refreshToken := some "refr",
            clientId := some "cid" })
        1700000000000
        (.ok { access_token := "newTok", expires_in := 3600,
               refresh_token := none })).result = .ok "newTok" := by
  have h := first_call_with_both_tokens_refreshes
    { accessToken := some "staticTok", refreshToken := some "refr",
      clientId := some "cid" }
    1700000000000
    (.ok { access_token := "newTok", expires_in := 3600,
           refresh_token := none })
    (by decide) (by decide) (by decide)
  exact ⟨h.2.2.1, h.2.2.2.1 _ rfl⟩

/-- C10: `buildCalendar` on the empty task list — and on any list whose
tasks all lack a truthy due timestamp — yields zero events while keeping
the fixed calendar metadata (name, producer identity, Gregorian scale,
30-minute TTL), and the feed endpoint then answers 200 with a non-empty
VCALENDAR body. -/
theorem empty_calendar_still_has_metadata :
    (buildCalendar []).events = []
    ∧ (buildCalendar []).name = "todo-due-calendar"
    ∧ (buildCalendar []).prodIdCompany = "bunnyxt"
    ∧ (buildCalendar []).prodIdProduct = "todo-due-ics"
    ∧ (buildCalendar []).prodIdLanguage = "zh-CN"
    ∧ (buildCalendar []).scale = "GREGORIAN"
    ∧ (buildCalendar []).ttl = 30 * 60
    ∧ (∀ ts : List TodoTask, (∀ t ∈ ts, truthy (dueOf t) = false) →
        (buildCalendar ts).events = [])
    ∧ (handleFeed "" none (.ok (buildCalendar []))).response.status = 200
    ∧ (handleFeed "" none (.ok (buildCalendar []))).response.contentType =
        some "text/calendar; charset=utf-8"
    ∧ (handleFeed "" none (.ok (buildCalendar []))).response.body ≠ ""
    ∧ List.isPrefixOf "BEGIN:VCALENDAR".data
        ((handleFeed "" none
          (.ok (buildCalendar []))).response.body).data = true := by
  refine ⟨rfl, rfl, rfl, rfl, rfl, rfl, rfl, ?_, rfl, rfl, by decide, by decide⟩
  intro ts h
  exact filterMap_eventOfTask_eq_nil ts h

/-- C10 witness: a list holding one task without a due timestamp yields
zero events. -/
theorem empty_calendar_still_has_metadata_witness :
    (buildCalendar
      [{ id := "x", title := "no due", status := none,
         lastModifiedDateTime := none, dueDateTime := none,
         categories := none }]).events = [] :=
  empty_calendar_still_has_metadata.2.2.2.2.2.2.2.1
    [{ id := "x", title := "no due", status := none,
       lastModifiedDateTime := none, dueDateTime := none,
       categories := none }] (by decide)

end TodoDueCalendar
